/-
  Verification development for TuneDisplay.

  Shallow embedding of the core of the repository:
    - `Track` and its equality (src/src/tunedisplay/tunedisplay.py, class Track;
      pydantic BaseModel equality compares all declared fields).
    - A small model of Python/JSON values (`PyVal`) and the exception classes
      that the client code catches (`PyErr`), used to embed the parsing code of
      `LastFmClient` (`_extract_image_url`, `_create_track`, `get_now_playing`).
    - The monitoring loop `run_monitoring_loop` as a step function over the
      "previous track" state, with external calls (network fetch, display
      updates, art download) represented by an explicit per-cycle outcome
      record, and `time.sleep` calls recorded in the cycle trace.
    - The GUI fitting computations and state updates of `TuneDisplayGUI`
      (src/gui.py `update_album_art` min-ratio fit; src/src/tunedisplay/gui.py
      fixed-height side panel fit, `update_song_info`, `clear_album_art`).

  Machine reals: the Python code computes ratios with float division and
  truncates with `int(...)`; all quantities involved are nonnegative, so
  `int` truncation is floor.  The embedding uses exact rationals (`ℚ`) and
  `Nat.floor`, the intended real-valued semantics of the computation.
-/
import Mathlib

namespace TuneDisplay

/-- The `Track` pydantic model of tunedisplay.py: artist, name, album and an
optional validated art URL (modelled as the underlying URL string). -/
structure Track where
  artist : String
  name : String
  album : String
  art_url : Option String := none
deriving DecidableEq

/-- Pydantic `BaseModel.__eq__`: two instances of the model compare equal iff
all declared fields are equal. -/
def trackEq (t1 t2 : Track) : Bool :=
  t1.artist == t2.artist && t1.name == t2.name &&
    t1.album == t2.album && t1.art_url == t2.art_url

/-- Model of the Python/JSON values flowing through the Last.fm client:
`None`, strings, dicts with string keys, and lists.  (Numeric and boolean
JSON scalars do not occur in the code paths embedded here; any such scalar
would behave like another non-dict, non-list atom.) -/
inductive PyVal where
  | none : PyVal
  | str : String → PyVal
  | dict : List (String × PyVal) → PyVal
  | list : List PyVal → PyVal

/-- The Python exception classes distinguished by the client's `except`
clauses.  `validationError` stands for pydantic's ValidationError. -/
inductive PyErr where
  | attributeError
  | typeError
  | keyError
  | indexError
  | validationError
deriving DecidableEq

/-- Python truthiness for the modelled values: `None`, `""`, `{}`, `[]` are
falsy, everything else truthy. -/
def truthy : PyVal → Bool
  | .none => false
  | .str s => !s.isEmpty
  | .dict f => !f.isEmpty
  | .list l => !l.isEmpty

/-- Dict field lookup (first match). -/
def plook : List (String × PyVal) → String → Option PyVal
  | [], _ => Option.none
  | (k, v) :: rest, key => if k == key then some v else plook rest key

/-- `d[k]` with a default: `d.get(k, dflt)` on a dict. -/
def plookD (f : List (String × PyVal)) (k : String) (dflt : PyVal) : PyVal :=
  (plook f k).getD dflt

/-- Python `v.get(k, dflt)`: only dicts have `.get`; on any other value the
attribute access raises AttributeError. -/
def pyGet (v : PyVal) (k : String) (dflt : PyVal) : Except PyErr PyVal :=
  match v with
  | .dict f => .ok (plookD f k dflt)
  | _ => .error .attributeError

/-- Python `v[0]`: head of a list (IndexError when empty), first character of
a string, KeyError on a dict without an integer key, TypeError on `None`. -/
def index0 : PyVal → Except PyErr PyVal
  | .list (x :: _) => .ok x
  | .list [] => .error .indexError
  | .str s => if s.isEmpty then .error .indexError else .ok (.str s.front.toString)
  | .dict _ => .error .keyError
  | .none => .error .typeError

/-- Python `v == s` for a string literal `s`: true only when `v` is that
string. -/
def isStrEq (v : PyVal) (s : String) : Bool :=
  match v with
  | .str a => a == s
  | _ => false

/-- Boolean prefix test on character lists (first argument is the prefix). -/
def charListPrefix : List Char → List Char → Bool
  | [], _ => true
  | _ :: _, [] => false
  | c :: cs, d :: ds => c == d && charListPrefix cs ds

/-- Model of pydantic `HttpUrl` validation on a string: an http(s) URL with a
nonempty remainder after the scheme. -/
def isHttpUrl (s : String) : Bool :=
  (charListPrefix "http://".data s.data && decide (7 < s.data.length)) ||
    (charListPrefix "https://".data s.data && decide (8 < s.data.length))

/-- The coercion to a Python `str` that pydantic accepts for the `str` fields
of `Track`: only actual strings. -/
def pyStr? : PyVal → Option String
  | .str s => some s
  | _ => Option.none

/-- `Track(**track_info)`: pydantic validates the three text fields as `str`
and `art_url` as `HttpUrl | None`, raising ValidationError on failure. -/
def mkTrack (a n al art : PyVal) : Except PyErr Track :=
  match pyStr? a, pyStr? n, pyStr? al with
  | some a1, some n1, some al1 =>
      match art with
      | .none => .ok ⟨a1, n1, al1, Option.none⟩
      | .str u =>
          if isHttpUrl u then .ok ⟨a1, n1, al1, some u⟩
          else .error .validationError
      | _ => .error .validationError
  | _, _, _ => .error .validationError

/-- The `for img in image_list` scan of `_extract_image_url`: `art_url` is
overwritten by the `"#text"` of every dict tagged `size == "extralarge"`,
and the loop breaks as soon as that value is truthy. -/
def scanXL : List PyVal → PyVal → PyVal
  | [], acc => acc
  | img :: rest, acc =>
      match img with
      | .dict f =>
          if isStrEq (plookD f "size" .none) "extralarge" then
            let t := plookD f "#text" .none
            if truthy t then t else scanXL rest t
          else scanXL rest acc
      | _ => scanXL rest acc

/-- The `if not art_url:` fallback after the scan of `_extract_image_url`:
a falsy scan result is replaced by the last entry's `"#text"` when the last
entry is a dict. -/
def xlFallback (items : List PyVal) (a : PyVal) : PyVal :=
  if truthy a then a
  else
    match items.getLast? with
    | some (.dict f) => plookD f "#text" .none
    | _ => a

/-- `LastFmClient._extract_image_url` (src/src/tunedisplay/tunedisplay.py):
prefer the first truthy `"#text"` of an `"extralarge"`-tagged candidate;
when the scan ends falsy, fall back to the last entry's `"#text"` when the
last entry is a dict; a falsy final value becomes `None`. -/
def extractImageUrl (track_data : PyVal) : Except PyErr PyVal :=
  match pyGet track_data "image" .none with
  | .error e => .error e
  | .ok image_list =>
      match image_list with
      | .list items =>
          if items.isEmpty then .ok .none
          else
            let a2 := xlFallback items (scanXL items .none)
            .ok (if truthy a2 then a2 else .none)
      | _ => .ok .none

/-- An image candidate explicitly tagged with the `"extralarge"` size: a dict
whose `"size"` entry is the string `"extralarge"`. -/
def isXL : PyVal → Bool
  | .dict f => isStrEq (plookD f "size" .none) "extralarge"
  | _ => false

/-- The `"#text"` value (the URL slot) of an image candidate. -/
def xlText : PyVal → PyVal
  | .dict f => plookD f "#text" .none
  | _ => .none

/-- The three essential field extractions of `_create_track`:
`track_data.get("artist", {}).get("#text")`, `track_data.get("name")`,
`track_data.get("album", {}).get("#text")`. -/
def essentials (td : PyVal) : Except PyErr (PyVal × PyVal × PyVal) :=
  match pyGet td "artist" (.dict []) with
  | .error e => .error e
  | .ok aObj =>
      match pyGet aObj "#text" .none with
      | .error e => .error e
      | .ok a =>
          match pyGet td "name" .none with
          | .error e => .error e
          | .ok n =>
              match pyGet td "album" (.dict []) with
              | .error e => .error e
              | .ok alObj =>
                  match pyGet alObj "#text" .none with
                  | .error e => .error e
                  | .ok al => .ok (a, n, al)

/-- The body of `_create_track`'s `try` block: extract the essential fields,
return `None` (with a warning) when any is falsy, otherwise extract the art
URL and construct the pydantic `Track`. -/
def createTrackBody (td : PyVal) : Except PyErr (Option Track) :=
  match essentials td with
  | .error e => .error e
  | .ok (a, n, al) =>
      if truthy a && truthy n && truthy al then
        match extractImageUrl td with
        | .error e => .error e
        | .ok art =>
            match mkTrack a n al art with
            | .error e => .error e
            | .ok t => .ok (some t)
      else .ok Option.none

/-- `LastFmClient._create_track`: runs the body and catches exactly
`(AttributeError, TypeError, KeyError)`, returning `None`; any other
exception (in particular pydantic's ValidationError) propagates. -/
def createTrack (td : PyVal) : Except PyErr (Option Track) :=
  match createTrackBody td with
  | .error .attributeError => .ok Option.none
  | .error .typeError => .ok Option.none
  | .error .keyError => .ok Option.none
  | r => r

/-- The `isinstance(attributes, dict) and attributes.get("nowplaying") ==
"true"` check of `get_now_playing` on the `"@attr"` value. -/
def nowplayingOk (attrs : PyVal) : Bool :=
  match attrs with
  | .dict g => isStrEq (plookD g "nowplaying" .none) "true"
  | _ => false

/-- The body of `get_now_playing`'s `try` block (src/src/tunedisplay/
tunedisplay.py): walk `recenttracks.track[0]`, require the `"@attr"`
nowplaying marker, then build the track. -/
def nowPlayingBody (data : PyVal) : Except PyErr (Option Track) :=
  match pyGet data "recenttracks" (.dict []) with
  | .error e => .error e
  | .ok recent =>
      match pyGet recent "track" (.list []) with
      | .error e => .error e
      | .ok trackList =>
          if truthy trackList then
            match index0 trackList with
            | .error e => .error e
            | .ok latest =>
                match pyGet latest "@attr" (.dict []) with
                | .error e => .error e
                | .ok attrs =>
                    if nowplayingOk attrs then createTrack latest
                    else .ok Option.none
          else .ok Option.none

/-- `LastFmClient.get_now_playing` after `_make_request` returned `data`
(`PyVal.none` models a request that failed or reported an API error, which
`_make_request` surfaces as Python `None`): `if not data: return None`, then
the `try` body with `except (KeyError, IndexError, TypeError)` returning
`None`.  Any other exception escapes `get_now_playing`. -/
def parseRecent (data : PyVal) : Except PyErr (Option Track) :=
  if truthy data then
    match nowPlayingBody data with
    | .error .keyError => .ok Option.none
    | .error .indexError => .ok Option.none
    | .error .typeError => .ok Option.none
    | r => r
  else .ok Option.none

/-- Boolean infix test on character lists (first argument is the pattern). -/
def charListInfix : List Char → List Char → Bool
  | pat, [] => pat.isEmpty
  | pat, c :: rest => charListPrefix pat (c :: rest) || charListInfix pat rest

/-- Python `k in v` for a string `k`: key membership on a dict, element
membership on a list (elements compare equal to `k` only when they are that
string), substring test on a string, TypeError on `None`. -/
def pyContains (v : PyVal) (k : String) : Except PyErr Bool :=
  match v with
  | .dict f => .ok (plook f k).isSome
  | .list items => .ok (items.any (fun u => isStrEq u k))
  | .str s => .ok (charListInfix k.data s.data)
  | .none => .error .typeError

/-- Python `v[k]` for a string key `k`: dict lookup raising KeyError when the
key is missing; TypeError on a list (string index), a string, or `None`. -/
def pyIndex (v : PyVal) (k : String) : Except PyErr PyVal :=
  match v with
  | .dict f =>
      match plook f k with
      | some u => .ok u
      | Option.none => .error .keyError
  | _ => .error .typeError

/-- The `for img in latest_track_data["image"]` loop of the flat variant's
`get_now_playing` (src/tunedisplay.py lines 175-178): no isinstance guard on
the entries (`img.get` on a non-dict raises AttributeError), and the loop
breaks at the first `"extralarge"`-tagged entry whether or not its `"#text"`
is truthy. -/
def scanXLFlat : List PyVal → Except PyErr PyVal
  | [] => .ok .none
  | img :: rest =>
      match pyGet img "size" .none with
      | .error e => .error e
      | .ok sz =>
          if isStrEq sz "extralarge" then pyGet img "#text" .none
          else scanXLFlat rest

/-- Art-URL extraction inlined in the flat variant's `get_now_playing`
(src/tunedisplay.py lines 168-180): guarded by
`"image" in latest and isinstance(latest["image"], list) and len(...) > 0`;
after the scan, when `art_url_str` is falsy and the last entry is truthy,
fall back to the last entry's `"#text"`. -/
def extractImageUrlFlat (latest : PyVal) : Except PyErr PyVal :=
  match pyContains latest "image" with
  | .error e => .error e
  | .ok c =>
      if c then
        match pyIndex latest "image" with
        | .error e => .error e
        | .ok img =>
            match img with
            | .list items =>
                if items.isEmpty then .ok .none
                else
                  match scanXLFlat items with
                  | .error e => .error e
                  | .ok a =>
                      if truthy a then .ok a
                      else
                        match items.getLast? with
                        | some last =>
                            if truthy last then pyGet last "#text" .none
                            else .ok a
                        | Option.none => .ok a
            | _ => .ok .none
      else .ok .none

/-- The `try` body of the flat variant's `get_now_playing`
(src/tunedisplay.py lines 161-191), translated statement by statement: the
short-circuited `"recenttracks" in data and "track" in data["recenttracks"]
and data["recenttracks"]["track"]` guard, the `"@attr"`/nowplaying check,
then the three subscript extractions `latest["artist"]["#text"]`,
`latest["name"]`, `latest["album"]["#text"]` — with NO emptiness guard —
followed directly by `Track(**track_data)`. -/
def nowPlayingBodyFlat (data : PyVal) : Except PyErr (Option Track) := do
  let c1 ← pyContains data "recenttracks"
  if c1 then do
    let rt ← pyIndex data "recenttracks"
    let c2 ← pyContains rt "track"
    if c2 then do
      let tl ← pyIndex rt "track"
      if truthy tl then do
        let latest ← index0 tl
        let cA ← pyContains latest "@attr"
        if cA then do
          let attr ← pyIndex latest "@attr"
          let np ← pyGet attr "nowplaying" .none
          if isStrEq np "true" then do
            let artistObj ← pyIndex latest "artist"
            let artist ← pyIndex artistObj "#text"
            let name ← pyIndex latest "name"
            let albumObj ← pyIndex latest "album"
            let album ← pyIndex albumObj "#text"
            let art ← extractImageUrlFlat latest
            let t ← mkTrack artist name album (if truthy art then art else .none)
            pure (some t)
          else pure Option.none
        else pure Option.none
      else pure Option.none
    else pure Option.none
  else pure Option.none

/-- The flat variant's `get_now_playing` (src/tunedisplay.py): `if not data:
return None`, then the `try` body with `except (KeyError, IndexError)` and
`except ValidationError` both returning `None`; any other exception
escapes. -/
def parseRecentFlat (data : PyVal) : Except PyErr (Option Track) :=
  if truthy data then
    match nowPlayingBodyFlat data with
    | .error .keyError => .ok Option.none
    | .error .indexError => .ok Option.none
    | .error .validationError => .ok Option.none
    | r => r
  else .ok Option.none

/-- The structured log events emitted by `run_monitoring_loop`
(`event_type` values `now_playing_started` / `now_playing_changed` /
`now_playing_stopped`). -/
inductive Event where
  | started
  | changed
  | stopped
deriving DecidableEq

/-- The display-update commands the loop issues to the `TuneDisplayGUI`. -/
inductive Cmd where
  | updateInfo (title artist album : String)
  | updateInfoEmpty
  | updateArt (path : String)
  | clearArt
deriving DecidableEq

/-- Outcome of the external calls of one poll cycle: the result of
`client.get_now_playing()` (an exception or a track-or-`None`), whether
`display.update_song_info` raises, the result of
`client.download_album_art` (the saved path, `None` on its soft failures,
or an exception), and whether `display.update_album_art` /
`display.clear_album_art` raise. -/
structure CycleOps where
  fetch : Except PyErr (Option Track)
  infoRaises : Bool
  download : Except PyErr (Option String)
  artRaises : Bool
  clearRaises : Bool

/-- The `try` block of one iteration of `run_monitoring_loop`
(src/src/tunedisplay/tunedisplay.py lines 270-309), translated statement by
statement.  Returns the value of `previous_track` after the block, the log
events and display commands issued before any exception, and whether the
block raised (in which case the final `previous_track = now_playing_track`
assignment was never reached). -/
def tryBody (noArt : Bool) (prev : Option Track) (ops : CycleOps) :
    Option Track × List Event × List Cmd × Bool :=
  match ops.fetch with
  | .error _ => (prev, [], [], true)
  | .ok now =>
      if now = prev then (prev, [], [], false)
      else
        match now with
        | some t =>
            let ev := if prev.isSome then Event.changed else Event.started
            if ops.infoRaises then (prev, [ev], [], true)
            else
              let cmd1 := Cmd.updateInfo t.name t.artist t.album
              if !noArt && t.art_url.isSome then
                match ops.download with
                | .error _ => (prev, [ev], [cmd1], true)
                | .ok Option.none => (some t, [ev], [cmd1], false)
                | .ok (some path) =>
                    if ops.artRaises then (prev, [ev], [cmd1], true)
                    else (some t, [ev], [cmd1, Cmd.updateArt path], false)
              else (some t, [ev], [cmd1], false)
        | Option.none =>
            match prev with
            | some _ =>
                if ops.infoRaises then (prev, [Event.stopped], [], true)
                else if ops.clearRaises then
                  (prev, [Event.stopped], [Cmd.updateInfoEmpty], true)
                else
                  (Option.none, [Event.stopped],
                    [Cmd.updateInfoEmpty, Cmd.clearArt], false)
            | Option.none => (prev, [], [], false)

/-- One full iteration of `run_monitoring_loop` with interval `i`: run the
`try` block; on an exception sleep `i * 2` in the `except` handler, then in
every case execute the trailing `time.sleep(i)`.  The recorded list holds
the argument of each `time.sleep` call of the iteration, in order. -/
def runCycle (i : ℕ) (noArt : Bool) (prev : Option Track) (ops : CycleOps) :
    Option Track × List Event × List Cmd × List ℕ :=
  let r := tryBody noArt prev ops
  if r.2.2.2 then (r.1, r.2.1, r.2.2.1, [i * 2, i])
  else (r.1, r.2.1, r.2.2.1, [i])

/-- The monitoring loop run over a finite schedule of per-cycle outcomes,
producing the trace of (events, display commands, sleeps) of every cycle.
The loop body never lets an exception escape, so the trace always covers
the whole schedule. -/
def runLoop (i : ℕ) (noArt : Bool) :
    Option Track → List CycleOps → List (List Event × List Cmd × List ℕ)
  | _, [] => []
  | prev, ops :: rest =>
      let r := runCycle i noArt prev ops
      (r.2.1, r.2.2.1, r.2.2.2) :: runLoop i noArt r.1 rest

/-- A poll cycle in which nothing raises: the fetch returns `r`, the
download soft-fails to `None`, and no display call raises. -/
def pollOk (r : Option Track) : CycleOps :=
  ⟨.ok r, false, .ok Option.none, false, false⟩

/-- The aspect-preserving fit of `update_album_art` in src/gui.py: ratios
`W/w` and `H/h`, the smaller applied to both dimensions, truncated to
integer pixels (`int(...)` on nonnegative floats is floor). -/
def fitDimensions (w h W H : ℕ) : ℕ × ℕ :=
  let width_ratio : ℚ := (W : ℚ) / (w : ℚ)
  let height_ratio : ℚ := (H : ℚ) / (h : ℚ)
  let ratio := min width_ratio height_ratio
  (⌊(w : ℚ) * ratio⌋₊, ⌊(h : ℚ) * ratio⌋₊)

/-- The fixed-height side-panel fit of `update_album_art` in
src/src/tunedisplay/gui.py: the larger source dimension becomes
`art_size` (the window height `t`) and the other is scaled by the same
ratio, truncated to integer pixels. -/
def fitSidePanel (w h t : ℕ) : ℕ × ℕ :=
  if h < w then (t, ⌊(h : ℚ) * ((t : ℚ) / (w : ℚ))⌋₊)
  else (⌊(w : ℚ) * ((t : ℚ) / (h : ℚ))⌋₊, t)

/-- The render state owned by `TuneDisplayGUI` (src/src/tunedisplay/gui.py):
the `running` flag, the three text labels, the retained current image
buffer (modelled by the fitted dimensions of the installed image), and the
stored `current_image_path` used by resize events. -/
structure GuiState where
  running : Bool
  titleText : String
  artistText : String
  albumText : String
  currentImage : Option (ℕ × ℕ)
  currentImagePath : Option String
deriving DecidableEq

/-- `TuneDisplayGUI.update_song_info`: a no-op unless `running`; all three
fields empty renders the fixed placeholder, otherwise the fields verbatim. -/
def update_song_info (s : GuiState) (title artist album : String) : GuiState :=
  if !s.running then s
  else if title.isEmpty && artist.isEmpty && album.isEmpty then
    { s with titleText := "Currently not playing anything",
             artistText := "", albumText := "" }
  else
    { s with titleText := title, artistText := artist, albumText := album }

/-- `TuneDisplayGUI.update_album_art`: returns immediately unless `running`
and the path exists on disk (`pathExists` is the oracle for
`Path(image_path).exists()`); then stores the path, and — when decoding
succeeds (`decoded` gives the source dimensions; `Option.none` models an
exception caught by the handler) — installs the side-panel-fitted image as
the new retained buffer. -/
def update_album_art (s : GuiState) (path : String) (pathExists : Bool)
    (decoded : Option (ℕ × ℕ)) (windowHeight : ℕ) : GuiState :=
  if !s.running || !pathExists then s
  else
    let s1 := { s with currentImagePath := some path }
    match decoded with
    | Option.none => s1
    | some (w, h) => { s1 with currentImage := some (fitSidePanel w h windowHeight) }

/-- `TuneDisplayGUI.clear_album_art`: when `running`, releases the retained
image buffer (and blanks the art label); otherwise does nothing. -/
def clear_album_art (s : GuiState) : GuiState :=
  if s.running then { s with currentImage := Option.none } else s

/-- C3: two Tracks are equal iff artist, name, album and art_url are all
pairwise equal; a difference in any single one of the four fields (including
art_url alone) makes them unequal. -/
theorem C3_track_equality (t1 t2 : Track) :
    (trackEq t1 t2 = true ↔
      (t1.artist = t2.artist ∧ t1.name = t2.name ∧ t1.album = t2.album ∧
        t1.art_url = t2.art_url)) ∧
    (t1.artist ≠ t2.artist → trackEq t1 t2 = false) ∧
    (t1.name ≠ t2.name → trackEq t1 t2 = false) ∧
    (t1.album ≠ t2.album → trackEq t1 t2 = false) ∧
    (t1.art_url ≠ t2.art_url → trackEq t1 t2 = false) := by
  have hiff : trackEq t1 t2 = true ↔
      (t1.artist = t2.artist ∧ t1.name = t2.name ∧ t1.album = t2.album ∧
        t1.art_url = t2.art_url) := by
    simp [trackEq, Bool.and_eq_true, beq_iff_eq, and_assoc]
  have hfalse : ¬(t1.artist = t2.artist ∧ t1.name = t2.name ∧
      t1.album = t2.album ∧ t1.art_url = t2.art_url) → trackEq t1 t2 = false := by
    intro hne
    cases h : trackEq t1 t2
    · rfl
    · exact absurd (hiff.mp h) hne
  exact ⟨hiff, fun h => hfalse (by tauto), fun h => hfalse (by tauto),
    fun h => hfalse (by tauto), fun h => hfalse (by tauto)⟩

/-- Witness for C3 at concrete tracks differing only in art_url. -/
theorem C3_track_equality_witness :
    trackEq ⟨"a", "n", "l", some "http://x/1"⟩ ⟨"a", "n", "l", some "http://x/2"⟩
      = false :=
  (C3_track_equality _ _).2.2.2.2 (by decide)

theorem scanXL_skip (pre rest : List PyVal) (acc : PyVal)
    (h : ∀ u ∈ pre, isXL u = false) :
    scanXL (pre ++ rest) acc = scanXL rest acc := by
  induction pre with
  | nil => rfl
  | cons v pre ih =>
      have hv : isXL v = false := h v (List.mem_cons_self v pre)
      have hrest : ∀ u ∈ pre, isXL u = false :=
        fun u hu => h u (List.mem_cons_of_mem v hu)
      cases v with
      | dict f =>
          have : isStrEq (plookD f "size" .none) "extralarge" = false := by
            simpa [isXL] using hv
          simp [scanXL, this, ih hrest]
      | none => simpa [scanXL] using ih hrest
      | str s => simpa [scanXL] using ih hrest
      | list l => simpa [scanXL] using ih hrest

theorem scanXL_falsy (items : List PyVal) (acc : PyVal)
    (h : ∀ u ∈ items, isXL u = false ∨ truthy (xlText u) = false)
    (hacc : truthy acc = false) :
    truthy (scanXL items acc) = false := by
  induction items generalizing acc with
  | nil => simpa [scanXL] using hacc
  | cons v items ih =>
      have hv := h v (List.mem_cons_self v items)
      have hrest : ∀ u ∈ items, isXL u = false ∨ truthy (xlText u) = false :=
        fun u hu => h u (List.mem_cons_of_mem v hu)
      cases v with
      | dict f =>
          rcases hv with hv | hv
          · have : isStrEq (plookD f "size" .none) "extralarge" = false := by
              simpa [isXL] using hv
            simp only [scanXL, this, if_false]
            exact ih _ hrest hacc
          · have hxt : truthy (plookD f "#text" .none) = false := by
              simpa [xlText] using hv
            by_cases hsz : isStrEq (plookD f "size" .none) "extralarge" = true
            · simp only [scanXL, hsz, if_true, hxt, if_false]
              exact ih _ hrest hxt
            · simp only [Bool.not_eq_true] at hsz
              simp only [scanXL, hsz, if_false]
              exact ih _ hrest hacc
      | none => simp only [scanXL]; exact ih _ hrest hacc
      | str s => simp only [scanXL]; exact ih _ hrest hacc
      | list l => simp only [scanXL]; exact ih _ hrest hacc

/-- C4: art-URL extraction prefers the candidate tagged "extralarge" (the
first one carrying a value); when no candidate is so tagged, or the tagged
ones have no value, it falls back to the last entry; an empty or absent list
yields no art URL; and the two concrete example lists of the spec select B
and C respectively. -/
theorem C4_extract_image_url :
    (∀ (pre post : List PyVal) (v : PyVal),
        (∀ u ∈ pre, isXL u = false) → isXL v = true → truthy (xlText v) = true →
        extractImageUrl (.dict [("image", .list (pre ++ v :: post))]) =
          .ok (xlText v)) ∧
    (∀ (items : List PyVal) (g : List (String × PyVal)),
        (∀ u ∈ items, isXL u = false ∨ truthy (xlText u) = false) →
        items.getLast? = some (.dict g) →
        truthy (plookD g "#text" .none) = true →
        extractImageUrl (.dict [("image", .list items)]) =
          .ok (plookD g "#text" .none)) ∧
    extractImageUrl (.dict []) = .ok .none ∧
    extractImageUrl (.dict [("image", .list [])]) = .ok .none ∧
    extractImageUrl (.dict [("image", .list [
        .dict [("size", .str "small"), ("#text", .str "A")],
        .dict [("size", .str "extralarge"), ("#text", .str "B")],
        .dict [("size", .str "large"), ("#text", .str "C")]])]) =
      .ok (.str "B") ∧
    extractImageUrl (.dict [("image", .list [
        .dict [("size", .str "small"), ("#text", .str "A")],
        .dict [("size", .str "medium"), ("#text", .str "C")]])]) =
      .ok (.str "C") := by
  have hlist : ∀ (items : List PyVal),
      extractImageUrl (.dict [("image", .list items)]) =
        (if items.isEmpty then .ok .none
         else
           .ok (if truthy (xlFallback items (scanXL items .none)) then
             xlFallback items (scanXL items .none) else .none)) := by
    intro items
    rfl
  refine ⟨?_, ?_, rfl, rfl, rfl, rfl⟩
  · intro pre post v hpre hv ht
    have hscan : scanXL (pre ++ v :: post) .none = xlText v := by
      rw [scanXL_skip pre _ _ hpre]
      rcases v with _ | s | f | l
      · simp [isXL] at hv
      · simp [isXL] at hv
      · have hsz : isStrEq (plookD f "size" .none) "extralarge" = true := by
          simpa [isXL] using hv
        have hxt : truthy (plookD f "#text" .none) = true := by
          simpa [xlText] using ht
        simp [scanXL, hsz, hxt, xlText]
      · simp [isXL] at hv
    have hni : (pre ++ v :: post).isEmpty = false := by simp
    have hfb : xlFallback (pre ++ v :: post) (xlText v) = xlText v := by
      simp [xlFallback, ht]
    rw [hlist, hni]
    simp [hscan, hfb, ht]
  · intro items g hfalsy hlast htruthy
    have hni : items.isEmpty = false := by
      cases items with
      | nil => simp at hlast
      | cons a l => simp
    have hscan : truthy (scanXL items .none) = false :=
      scanXL_falsy items .none hfalsy rfl
    have hfb : xlFallback items (scanXL items .none) = plookD g "#text" .none := by
      simp [xlFallback, hscan, hlast]
    rw [hlist, hni]
    simp [hfb, htruthy]

/-- Witness for C4 at the spec's first example list. -/
theorem C4_extract_image_url_witness :
    extractImageUrl (.dict [("image", .list (
        [PyVal.dict [("size", .str "small"), ("#text", .str "A")]] ++
        PyVal.dict [("size", .str "extralarge"), ("#text", .str "B")] ::
        [PyVal.dict [("size", .str "large"), ("#text", .str "C")]]))]) =
      .ok (xlText (.dict [("size", .str "extralarge"), ("#text", .str "B")])) :=
  C4_extract_image_url.1 _ _ _ (by decide) (by decide) (by decide)

/-- C7: a response whose latest entry lacks the nowplaying marker (or carries
it with a value other than "true") parses to absent, whatever other metadata
the entry carries. -/
theorem C7_nowplaying_marker (f : List (String × PyVal)) (rest : List PyVal)
    (h : nowplayingOk (plookD f "@attr" (.dict [])) = false) :
    parseRecent (.dict [("recenttracks",
        .dict [("track", .list (.dict f :: rest))])]) = .ok Option.none := by
  have h2 : nowplayingOk ((plook f "@attr").getD (PyVal.dict [])) = false := by
    simpa [plookD] using h
  simp [parseRecent, nowPlayingBody, pyGet, plookD, plook, truthy, index0, h2]

/-- Witness for C7: an entry with complete artist/name/album metadata but no
"@attr" marker yields absent. -/
theorem C7_nowplaying_marker_witness :
    parseRecent (.dict [("recenttracks", .dict [("track", .list [.dict [
        ("artist", .dict [("#text", .str "Artist")]),
        ("name", .str "Song"),
        ("album", .dict [("#text", .str "Album")])]])])]) = .ok Option.none :=
  C7_nowplaying_marker _ [] (by decide)

/-- C5: the claim that get_now_playing recovers every validation failure is
violated by the code: `_create_track` catches only AttributeError, TypeError
and KeyError and `get_now_playing` only KeyError, IndexError and TypeError,
so pydantic's ValidationError on an art URL that fails to parse as a URL
escapes get_now_playing.  This theorem evaluates the embedded code at such a
response: the result is an escaping ValidationError, not absent. -/
theorem C5_validation_error_escapes :
    parseRecent (.dict [("recenttracks", .dict [("track", .list [.dict [
        ("@attr", .dict [("nowplaying", .str "true")]),
        ("artist", .dict [("#text", .str "Artist")]),
        ("name", .str "Song"),
        ("album", .dict [("#text", .str "Album")]),
        ("image", .list [.dict [("size", .str "extralarge"),
          ("#text", .str "notaurl")]])]])])]) =
      .error .validationError := by rfl

theorem pyStrEqSome (v : PyVal) (s : String) : pyStr? v = some s ↔ v = .str s := by
  cases v <;> simp [pyStr?]

theorem mkTrack_ok_inv (a n al art : PyVal) (t : Track)
    (h : mkTrack a n al art = .ok t) :
    a = .str t.artist ∧ n = .str t.name ∧ al = .str t.album := by
  unfold mkTrack at h
  split at h
  · rename_i a1 n1 al1 ha hn hal
    have ha2 : a = .str a1 := (pyStrEqSome a a1).mp ha
    have hn2 : n = .str n1 := (pyStrEqSome n n1).mp hn
    have hal2 : al = .str al1 := (pyStrEqSome al al1).mp hal
    split at h
    · injection h with h2
      subst h2
      simp [ha2, hn2, hal2]
    · split at h
      · injection h with h2
        subst h2
        simp [ha2, hn2, hal2]
      · exact absurd h (by simp)
    · exact absurd h (by simp)
  · exact absurd h (by simp)

theorem createTrackBody_ok_some (td : PyVal) (t : Track)
    (h : createTrackBody td = .ok (some t)) :
    ∃ a n al art, essentials td = .ok (a, n, al) ∧
      (truthy a && truthy n && truthy al) = true ∧ mkTrack a n al art = .ok t := by
  unfold createTrackBody at h
  split at h
  · exact absurd h (by simp)
  · rename_i a n al heq
    split at h
    · rename_i hcond
      split at h
      · exact absurd h (by simp)
      · rename_i art hart
        split at h
        · exact absurd h (by simp)
        · rename_i t2 hmk
          obtain rfl : t2 = t := by simpa using h
          exact ⟨a, n, al, art, heq, hcond, hmk⟩
    · exact absurd h (by simp)

theorem createTrack_ok_some (td : PyVal) (t : Track)
    (h : createTrack td = .ok (some t)) : createTrackBody td = .ok (some t) := by
  unfold createTrack at h
  split at h
  · exact absurd h (by simp)
  · exact absurd h (by simp)
  · exact absurd h (by simp)
  · assumption

/-- The packaged variant's `_create_track` does enforce the essential-field
guard: an entry whose extracted artist, name or album is falsy yields
`None`, and every Track it constructs has non-empty artist, name and album.
(The flat variant lacks this guard; see the C6 theorem below.) -/
theorem createTrack_guard_packaged :
    (∀ (td a n al : PyVal), essentials td = .ok (a, n, al) →
        (truthy a && truthy n && truthy al) = false →
        createTrack td = .ok Option.none) ∧
    (∀ (td : PyVal) (t : Track), createTrack td = .ok (some t) →
        t.artist ≠ "" ∧ t.name ≠ "" ∧ t.album ≠ "") := by
  constructor
  · intro td a n al he hc
    unfold createTrack createTrackBody
    rw [he]
    simp [hc]
  · intro td t h
    obtain ⟨a, n, al, art, he, hc, hmk⟩ :=
      createTrackBody_ok_some td t (createTrack_ok_some td t h)
    obtain ⟨ha, hn, hal⟩ := mkTrack_ok_inv a n al art t hmk
    rw [ha, hn, hal] at hc
    simp only [truthy, Bool.and_eq_true, Bool.not_eq_true'] at hc
    obtain ⟨⟨h1, h2⟩, h3⟩ := hc
    have hrfl : String.isEmpty "" = true := rfl
    refine ⟨?_, ?_, ?_⟩ <;> intro hemp
    · rw [hemp, hrfl] at h1
      exact absurd h1 (by simp)
    · rw [hemp, hrfl] at h2
      exact absurd h2 (by simp)
    · rw [hemp, hrfl] at h3
      exact absurd h3 (by simp)

/-- Concrete check of the packaged guard: an entry with an empty artist
yields absent; the track built from a complete entry has non-empty
fields. -/
theorem createTrack_guard_packaged_check :
    createTrack (.dict [
        ("artist", .dict [("#text", .str "")]),
        ("name", .str "Song"),
        ("album", .dict [("#text", .str "Album")])]) = .ok Option.none ∧
    (("Artist" : String) ≠ "" ∧ ("Song" : String) ≠ "" ∧
      ("Album" : String) ≠ "") :=
  ⟨createTrack_guard_packaged.1 _ (.str "") (.str "Song") (.str "Album") rfl rfl,
    createTrack_guard_packaged.2 (.dict [
        ("artist", .dict [("#text", .str "Artist")]),
        ("name", .str "Song"),
        ("album", .dict [("#text", .str "Album")]),
        ("image", .list [.dict [("size", .str "extralarge"),
          ("#text", .str "http://img/x.png")]])])
      ⟨"Artist", "Song", "Album", some "http://img/x.png"⟩ (by rfl)⟩

/-- C6: the claim that a missing-or-empty essential field always yields
absent — equivalently that every returned Track has non-empty artist, name
and album — is violated by the flat variant (src/tunedisplay.py): its
`get_now_playing` extracts the fields by subscript with no emptiness guard
and constructs the Track directly, so a well-shaped nowplaying entry whose
artist `"#text"` is the empty string produces a Track with an empty artist
instead of absent.  This theorem evaluates the embedded flat code at such a
response. -/
theorem C6_empty_artist_track_constructed :
    parseRecentFlat (.dict [("recenttracks", .dict [("track", .list [.dict [
        ("@attr", .dict [("nowplaying", .str "true")]),
        ("artist", .dict [("#text", .str "")]),
        ("name", .str "Song"),
        ("album", .dict [("#text", .str "Album")])]])])]) =
      .ok (some ⟨"", "Song", "Album", Option.none⟩) := by rfl

/-- C2: a poll returning a Track equal to the previous one emits no event
and no display command (the cycle is a no-op); and from Idle the poll
sequence [Track(A), Track(A), Track(B), absent, absent] yields exactly the
per-cycle events [started, none, changed, stopped, none] in order, with
exactly one display update for the two consecutive equal payloads. -/
theorem C2_change_detector :
    (∀ (noArt : Bool) (t : Track) (ops : CycleOps), ops.fetch = .ok (some t) →
        tryBody noArt (some t) ops = (some t, [], [], false)) ∧
    (∀ (i : ℕ) (A B : Track), A ≠ B →
        runLoop i true Option.none
          [pollOk (some A), pollOk (some A), pollOk (some B),
            pollOk Option.none, pollOk Option.none] =
        [([Event.started], [Cmd.updateInfo A.name A.artist A.album], [i]),
         ([], [], [i]),
         ([Event.changed], [Cmd.updateInfo B.name B.artist B.album], [i]),
         ([Event.stopped], [Cmd.updateInfoEmpty, Cmd.clearArt], [i]),
         ([], [], [i])]) := by
  constructor
  · intro noArt t ops h
    simp [tryBody, h]
  · intro i A B hAB
    have hBA : B ≠ A := Ne.symm hAB
    simp [runLoop, runCycle, tryBody, pollOk, hBA]

/-- Witness for C2 at two concrete tracks differing in artist. -/
theorem C2_change_detector_witness :
    tryBody true (some ⟨"x", "y", "z", Option.none⟩)
        (pollOk (some ⟨"x", "y", "z", Option.none⟩)) =
      (some ⟨"x", "y", "z", Option.none⟩, [], [], false) ∧
    runLoop 3 true Option.none
        [pollOk (some ⟨"x", "y", "z", Option.none⟩),
         pollOk (some ⟨"x", "y", "z", Option.none⟩),
         pollOk (some ⟨"w", "y", "z", Option.none⟩),
         pollOk Option.none, pollOk Option.none] =
      [([Event.started], [Cmd.updateInfo "y" "x" "z"], [3]),
       ([], [], [3]),
       ([Event.changed], [Cmd.updateInfo "y" "w" "z"], [3]),
       ([Event.stopped], [Cmd.updateInfoEmpty, Cmd.clearArt], [3]),
       ([], [], [3])] :=
  ⟨C2_change_detector.1 true ⟨"x", "y", "z", Option.none⟩
      (pollOk (some ⟨"x", "y", "z", Option.none⟩)) rfl,
    C2_change_detector.2 3 ⟨"x", "y", "z", Option.none⟩ ⟨"w", "y", "z", Option.none⟩
      (by decide)⟩

/-- C9: when any step of the poll cycle raises after the fetch, the cycle
leaves `previous_track` unchanged (so the same transition is re-detected on
the next poll); the previous-track state changes only in a cycle that
completed without raising. -/
theorem C9_prev_track_on_raise :
    ∀ (noArt : Bool) (prev : Option Track) (ops : CycleOps),
      ((tryBody noArt prev ops).2.2.2 = true → (tryBody noArt prev ops).1 = prev) ∧
      ((tryBody noArt prev ops).1 ≠ prev → (tryBody noArt prev ops).2.2.2 = false) := by
  intro noArt prev ops
  have key : (tryBody noArt prev ops).2.2.2 = true →
      (tryBody noArt prev ops).1 = prev := by
    rcases hf : ops.fetch with e | now
    · simp [tryBody, hf]
    · by_cases hnp : now = prev
      · simp [tryBody, hf, hnp]
      · rcases now with _ | t
        · rcases prev with _ | p
          · exact absurd rfl hnp
          · by_cases hi : ops.infoRaises <;>
              by_cases hcl : ops.clearRaises <;>
                simp [tryBody, hf, hnp, hi, hcl]
        · by_cases hi : ops.infoRaises
          · simp [tryBody, hf, hnp, hi]
          · by_cases hart : (!noArt && t.art_url.isSome) = true
            · rcases hd : ops.download with e2 | p2
              · simp [tryBody, hf, hnp, hi, hart, hd]
              · rcases p2 with _ | path
                · simp [tryBody, hf, hnp, hi, hart, hd]
                · by_cases ha : ops.artRaises <;>
                    simp [tryBody, hf, hnp, hi, hart, hd, ha]
            · simp [tryBody, hf, hnp, hi, hart]
  refine ⟨key, fun hne => ?_⟩
  cases hr : (tryBody noArt prev ops).2.2.2
  · rfl
  · exact absurd (key hr) hne

/-- Witness for C9: a raising fetch leaves the state unchanged; a completed
cycle that changed the state did not raise. -/
theorem C9_prev_track_on_raise_witness :
    (tryBody true Option.none
        ⟨.error .typeError, false, .ok Option.none, false, false⟩).1 =
      Option.none ∧
    (tryBody true Option.none
        (pollOk (some ⟨"a", "n", "l", Option.none⟩))).2.2.2 = false :=
  ⟨(C9_prev_track_on_raise true Option.none _).1 rfl,
    (C9_prev_track_on_raise true Option.none _).2 (by decide)⟩

/-- C1 as stated is false at a concrete input: with interval 1, the failed
cycle is followed by sleeps of 2 and then 1 seconds before the next poll —
3 seconds in total, not exactly 2 * 1. -/
theorem C1_backoff_counterexample :
    (runCycle 1 true Option.none
        ⟨.error .typeError, false, .ok Option.none, false, false⟩).2.2.2 =
      [2, 1] ∧
    (runCycle 1 true Option.none
        ⟨.error .typeError, false, .ok Option.none, false, false⟩).2.2.2.sum ≠
      2 * 1 := by
  decide

/-- C1 amended: an unexpected exception in a poll cycle does not escape the
loop (the loop processes every scheduled cycle) and the failed cycle is
followed by a sleep of 2 times the interval in the handler plus the normal
trailing interval sleep before the next poll. -/
theorem C1_backoff_amended :
    (∀ (i : ℕ) (noArt : Bool) (prev : Option Track) (ops : CycleOps),
        (tryBody noArt prev ops).2.2.2 = true →
        (runCycle i noArt prev ops).2.2.2 = [i * 2, i]) ∧
    (∀ (i : ℕ) (noArt : Bool) (prev : Option Track) (l : List CycleOps),
        (runLoop i noArt prev l).length = l.length) := by
  constructor
  · intro i noArt prev ops h
    simp [runCycle, h]
  · intro i noArt prev l
    induction l generalizing prev with
    | nil => rfl
    | cons ops rest ih => simp [runLoop, ih]

/-- Witness for C1 amended at interval 2 with a raising fetch. -/
theorem C1_backoff_amended_witness :
    (runCycle 2 true Option.none
        ⟨.error .typeError, false, .ok Option.none, false, false⟩).2.2.2 =
      [2 * 2, 2] ∧
    (runLoop 2 true Option.none [pollOk Option.none]).length =
      [pollOk Option.none].length :=
  ⟨C1_backoff_amended.1 2 true Option.none _ rfl,
    C1_backoff_amended.2 2 true Option.none _⟩

/-- C10: once the running flag is false, update_song_info, update_album_art
and clear_album_art all leave the display state completely unchanged. -/
theorem C10_stopped_display_noop :
    ∀ (s : GuiState), s.running = false →
      ∀ (title artist album path : String) (pathExists : Bool)
        (decoded : Option (ℕ × ℕ)) (windowHeight : ℕ),
        update_song_info s title artist album = s ∧
        update_album_art s path pathExists decoded windowHeight = s ∧
        clear_album_art s = s := by
  intro s hs title artist album path pathExists decoded windowHeight
  refine ⟨?_, ?_, ?_⟩
  · simp [update_song_info, hs]
  · simp [update_album_art, hs]
  · simp [clear_album_art, hs]

/-- Witness for C10 at a concrete stopped display state. -/
theorem C10_stopped_display_noop_witness :
    update_song_info ⟨false, "t", "a", "b", some (5, 5), some "p.png"⟩ "x" "y" "z" =
        ⟨false, "t", "a", "b", some (5, 5), some "p.png"⟩ ∧
    update_album_art ⟨false, "t", "a", "b", some (5, 5), some "p.png"⟩ "q.png" true
        (some (20, 10)) 100 = ⟨false, "t", "a", "b", some (5, 5), some "p.png"⟩ ∧
    clear_album_art ⟨false, "t", "a", "b", some (5, 5), some "p.png"⟩ =
        ⟨false, "t", "a", "b", some (5, 5), some "p.png"⟩ :=
  C10_stopped_display_noop ⟨false, "t", "a", "b", some (5, 5), some "p.png"⟩ rfl
    "x" "y" "z" "q.png" true (some (20, 10)) 100

/-- C8: the min-ratio fit produces (floor(w*r), floor(h*r)) with
r = min(W/w, H/h), so neither output dimension exceeds its bound; the
fixed-height side-panel variant produces the same shape with
r = t / max(w,h), bounded by t on both axes; and for source 1920 by 1080 in
a 400 by 400 region the output is (400, 225), neither exceeding 400. -/
theorem C8_fit_dimensions (w h W H t : ℕ) (hw : 0 < w) (hh : 0 < h) :
    (fitDimensions w h W H =
        (⌊(w : ℚ) * min ((W : ℚ) / (w : ℚ)) ((H : ℚ) / (h : ℚ))⌋₊,
         ⌊(h : ℚ) * min ((W : ℚ) / (w : ℚ)) ((H : ℚ) / (h : ℚ))⌋₊) ∧
      (fitDimensions w h W H).1 ≤ W ∧ (fitDimensions w h W H).2 ≤ H) ∧
    (fitSidePanel w h t =
        (⌊(w : ℚ) * ((t : ℚ) / ((max w h : ℕ) : ℚ))⌋₊,
         ⌊(h : ℚ) * ((t : ℚ) / ((max w h : ℕ) : ℚ))⌋₊) ∧
      (fitSidePanel w h t).1 ≤ t ∧ (fitSidePanel w h t).2 ≤ t) ∧
    (fitDimensions 1920 1080 400 400 = (400, 225) ∧
      (fitDimensions 1920 1080 400 400).1 ≤ 400 ∧
      (fitDimensions 1920 1080 400 400).2 ≤ 400) := by
  have hw0 : ((w : ℚ)) ≠ 0 := by
    have : (0 : ℚ) < (w : ℚ) := by exact_mod_cast hw
    exact ne_of_gt this
  have hh0 : ((h : ℚ)) ≠ 0 := by
    have : (0 : ℚ) < (h : ℚ) := by exact_mod_cast hh
    exact ne_of_gt this
  refine ⟨⟨rfl, ?_, ?_⟩, ⟨?_, ?_, ?_⟩, ?_, ?_, ?_⟩
  · have hle : (w : ℚ) * min ((W : ℚ) / (w : ℚ)) ((H : ℚ) / (h : ℚ)) ≤ (W : ℚ) := by
      have h1 : (w : ℚ) * min ((W : ℚ) / (w : ℚ)) ((H : ℚ) / (h : ℚ)) ≤
          (w : ℚ) * ((W : ℚ) / (w : ℚ)) :=
        mul_le_mul_of_nonneg_left (min_le_left _ _) (by positivity)
      have h2 : (w : ℚ) * ((W : ℚ) / (w : ℚ)) = (W : ℚ) := by
        field_simp
      exact h1.trans (le_of_eq h2)
    calc (fitDimensions w h W H).1
        ≤ ⌊(W : ℚ)⌋₊ := Nat.floor_mono hle
      _ = W := Nat.floor_natCast W
  · have hle : (h : ℚ) * min ((W : ℚ) / (w : ℚ)) ((H : ℚ) / (h : ℚ)) ≤ (H : ℚ) := by
      have h1 : (h : ℚ) * min ((W : ℚ) / (w : ℚ)) ((H : ℚ) / (h : ℚ)) ≤
          (h : ℚ) * ((H : ℚ) / (h : ℚ)) :=
        mul_le_mul_of_nonneg_left (min_le_right _ _) (by positivity)
      have h2 : (h : ℚ) * ((H : ℚ) / (h : ℚ)) = (H : ℚ) := by
        field_simp
      exact h1.trans (le_of_eq h2)
    calc (fitDimensions w h W H).2
        ≤ ⌊(H : ℚ)⌋₊ := Nat.floor_mono hle
      _ = H := Nat.floor_natCast H
  · by_cases hlt : h < w
    · have hmax : max w h = w := Nat.max_eq_left (le_of_lt hlt)
      have hwt : (w : ℚ) * ((t : ℚ) / (w : ℚ)) = (t : ℚ) := by
        field_simp
      simp only [fitSidePanel, if_pos hlt, hmax, hwt, Nat.floor_natCast]
    · have hwh : w ≤ h := not_lt.mp hlt
      have hmax : max w h = h := Nat.max_eq_right hwh
      have hht : (h : ℚ) * ((t : ℚ) / (h : ℚ)) = (t : ℚ) := by
        field_simp
      simp only [fitSidePanel, if_neg hlt, hmax, hht, Nat.floor_natCast]
  · by_cases hlt : h < w
    · calc (fitSidePanel w h t).1
          = t := by simp only [fitSidePanel, if_pos hlt]
        _ ≤ t := le_refl t
    · have hle : (w : ℚ) * ((t : ℚ) / (h : ℚ)) ≤ (t : ℚ) := by
        have hwh : (w : ℚ) ≤ (h : ℚ) := by exact_mod_cast not_lt.mp hlt
        have h1 : (w : ℚ) * ((t : ℚ) / (h : ℚ)) ≤ (h : ℚ) * ((t : ℚ) / (h : ℚ)) :=
          mul_le_mul_of_nonneg_right hwh (by positivity)
        have h2 : (h : ℚ) * ((t : ℚ) / (h : ℚ)) = (t : ℚ) := by
          field_simp
        exact h1.trans (le_of_eq h2)
      calc (fitSidePanel w h t).1
          = ⌊(w : ℚ) * ((t : ℚ) / (h : ℚ))⌋₊ := by
            simp only [fitSidePanel, if_neg hlt]
        _ ≤ ⌊(t : ℚ)⌋₊ := Nat.floor_mono hle
        _ = t := Nat.floor_natCast t
  · by_cases hlt : h < w
    · have hle : (h : ℚ) * ((t : ℚ) / (w : ℚ)) ≤ (t : ℚ) := by
        have hhw : (h : ℚ) ≤ (w : ℚ) := by exact_mod_cast le_of_lt hlt
        have h1 : (h : ℚ) * ((t : ℚ) / (w : ℚ)) ≤ (w : ℚ) * ((t : ℚ) / (w : ℚ)) :=
          mul_le_mul_of_nonneg_right hhw (by positivity)
        have h2 : (w : ℚ) * ((t : ℚ) / (w : ℚ)) = (t : ℚ) := by
          field_simp
        exact h1.trans (le_of_eq h2)
      calc (fitSidePanel w h t).2
          = ⌊(h : ℚ) * ((t : ℚ) / (w : ℚ))⌋₊ := by
            simp only [fitSidePanel, if_pos hlt]
        _ ≤ ⌊(t : ℚ)⌋₊ := Nat.floor_mono hle
        _ = t := Nat.floor_natCast t
    · calc (fitSidePanel w h t).2
          = t := by simp only [fitSidePanel, if_neg hlt]
        _ ≤ t := le_refl t
  · norm_num [fitDimensions]
  · have hc : fitDimensions 1920 1080 400 400 = (400, 225) := by
      norm_num [fitDimensions]
    simp [hc]
  · have hc : fitDimensions 1920 1080 400 400 = (400, 225) := by
      norm_num [fitDimensions]
    simp [hc]

/-- Witness for C8 at the spec's concrete source and region sizes. -/
theorem C8_fit_dimensions_witness :
    (fitDimensions 1920 1080 400 400).1 ≤ 400 ∧
    (fitDimensions 1920 1080 400 400).2 ≤ 400 :=
  (C8_fit_dimensions 1920 1080 400 400 400 (by decide) (by decide)).2.2.2

end TuneDisplay
